import Mathlib

/-!
Shallow embedding of `bot.py` (LADAN401/Telegram-Bot): the reply-resolution
logic of `handle_message`, the completion helper `ask_openai_chat`, and the
command handlers `start`, `help_cmd`, `echo_cmd`.

Python strings are modelled as Lean `String` (both count Unicode code
points); `None`-able values as `Option`; the single outbound HTTP attempt is
modelled by an explicit `HttpOutcome` parameter describing what the network
returned (or that it failed).
-/

namespace Bot

/-- Python truthiness of an optional string (`if OPENAI_API_KEY:`):
`None` and the empty string are falsy. -/
def strTruthy : Option String → Bool
  | none => false
  | some s => !s.isEmpty

/-- Python `a or b` for an optional string `a` and default `b`
(`update.message.text or ""`, `update.effective_user.first_name or "User"`). -/
def pyOr (a : Option String) (b : String) : String :=
  match a with
  | none => b
  | some s => if s.isEmpty then b else s

/-- Whitespace characters stripped by Python `str.strip()` (ASCII range). -/
def isSpace (c : Char) : Bool :=
  c = ' ' || c = '\t' || c = '\n' || c = '\x0d' || c = '\x0b' || c = '\x0c'

/-- Python `str.strip()`: drop leading and trailing whitespace. -/
def pyStrip (s : String) : String :=
  String.mk (((s.data.dropWhile isSpace).reverse.dropWhile isSpace).reverse)

/-- Python slicing `s[:n]`: the first `n` code points of `s`. -/
def pyTake (s : String) (n : Nat) : String :=
  String.mk (s.data.take n)

/-- Python `str.lower()` (ASCII letters; the keyword set is ASCII). -/
def pyLower (s : String) : String :=
  String.mk (s.data.map Char.toLower)

/-- Python `needle in hay` substring test on strings. -/
def pyIn (needle hay : String) : Bool :=
  decide (needle.data <:+: hay.data)

/-- JSON values, for the body of the completion-service response. -/
inductive Json where
  | str (s : String)
  | num (n : Int)
  | arr (elems : List Json)
  | obj (fields : List (String × Json))
deriving Repr

/-- Python dict lookup `d[key]` on a JSON object's field list. -/
def jlookup : List (String × Json) → String → Option Json
  | [], _ => none
  | (k, v) :: rest, key => if k = key then some v else jlookup rest key

/-- `data["choices"][0]["message"]["content"]` with every Python runtime
error (wrong type, missing key, empty list) mapped to `none` — the
surrounding `except` catches them all. -/
def extractContent : Json → Option String
  | Json.obj fields =>
    match jlookup fields "choices" with
    | some (Json.arr (first :: _)) =>
      match first with
      | Json.obj mfields =>
        match jlookup mfields "message" with
        | some (Json.obj cfields) =>
          match jlookup cfields "content" with
          | some (Json.str s) => some s
          | _ => none
        | _ => none
      | _ => none
    | _ => none
  | _ => none

/-- What the one outbound `requests.post` produced: a network-level failure
(timeout, DNS, TLS — the call raised), or a response with a status code and
a body (`none` body: `resp.json()` raised a parse error). -/
inductive HttpOutcome where
  | netError
  | response (status : Nat) (body : Option Json)
deriving Repr

/-- `ask_openai_chat` (bot.py:43-76): `None` without a key; otherwise one
HTTP attempt — `raise_for_status` turns a 4xx/5xx status into a failure,
then the content is navigated out of the JSON and stripped. Every raised
exception is caught and becomes `None`. -/
def ask_openai_chat (apiKey : Option String) (outcome : HttpOutcome) :
    Option String :=
  if !strTruthy apiKey then none
  else
    match outcome with
    | HttpOutcome.netError => none
    | HttpOutcome.response status body =>
      if 400 ≤ status ∧ status < 600 then none
      else
        match body with
        | none => none
        | some j => (extractContent j).map pyStrip

/-- The Hausa keyword list of bot.py:124. -/
def hausa_keywords : List String :=
  ["ina", "yaya", "lafiya", "na gode", "sannu", "assalamu", "salam",
   "kwanaki", "me"]

/-- `any(k in user_lower for k in hausa_keywords)` on the lower-cased text
(bot.py:125-126). -/
def containsKeyword (text : String) : Bool :=
  hausa_keywords.any (fun k => pyIn k (pyLower text))

/-- The Hausa-flavored fallback template (bot.py:127). -/
def hausaFallback (name text : String) : String :=
  "Na ji sakonka, " ++ name ++
    ". 🌸\nKa/ki rubuta: \"" ++ text ++
    "\". Zan iya taimaka maka/ki — menene kake/kike so na yi?"

/-- The English echo fallback template (bot.py:129). -/
def englishFallback (text : String) : String :=
  "I heard you: \"" ++ text ++
    "\".\nYou can ask me questions or say hi (e.g., \x27Assalamu\x27)."

/-- The local fallback responder (bot.py:122-131). -/
def fallbackReply (text name : String) : String :=
  if containsKeyword text then hausaFallback name text
  else englishFallback text

/-- The truncation marker appended at bot.py:115. -/
def truncationMarker : String := "\n\n[truncated]"

/-- `handle_message` (bot.py:97-131), as the pure function from the inbound
message fields, the configured key and the network's behaviour to the one
outbound reply string. `msgText`/`firstName` are the raw (`None`-able)
update fields. -/
def handle_message (apiKey : Option String) (outcome : HttpOutcome)
    (msgText firstName : Option String) : String :=
  let user_text := pyOr msgText ""
  let user_first_name := pyOr firstName "User"
  if strTruthy apiKey then
    match ask_openai_chat apiKey outcome with
    | some reply =>
      if reply.isEmpty then fallbackReply user_text user_first_name
      else if reply.length > 4096 then pyTake reply 4000 ++ truncationMarker
      else reply
    | none => fallbackReply user_text user_first_name
  else fallbackReply user_text user_first_name

/-- Number of completion-service calls `handle_message` performs: exactly
one when a key is configured (bot.py:109-111), none otherwise. -/
def completionCalls (apiKey : Option String) : Nat :=
  if strTruthy apiKey then 1 else 0

/-- The `/start` reply (bot.py:79-87); the handler ignores its arguments. -/
def start (_args : List String) : String :=
  "Assalamu alaikum! 👋\n" ++
  "Ni bot ne — zan iya tattaunawa da kai.\n\n" ++
  "Commands:\n" ++
  "/help - taimako\n\n" ++
  "Just send me any message and I\x27ll reply. (If you set OPENAI_API_KEY the bot replies using OpenAI.)"

/-- The `/help` reply (bot.py:89-95); the handler ignores its arguments. -/
def help_cmd (_args : List String) : String :=
  "Help:\n" ++
  "• Send any text and I\x27ll reply.\n" ++
  "• I can speak Hausa and English.\n" ++
  "Note: for smarter replies set the OPENAI_API_KEY environment variable."

/-- The `/echo` reply (bot.py:134-139): usage text without arguments,
otherwise the space-joined arguments. -/
def echo_cmd (args : List String) : String :=
  if args.isEmpty then "Usage: /echo your message"
  else String.intercalate " " args

/-- A successful completion-service outcome whose body is
`{choices: [{message: {content: c}}]}` with a 200 status. -/
def okOutcome (c : String) : HttpOutcome :=
  HttpOutcome.response 200
    (some (Json.obj [("choices",
      Json.arr [Json.obj [("message",
        Json.obj [("content", Json.str c)])]])]))

/-! ### Helper lemmas -/

theorem pyOr_some (t : String) : pyOr (some t) "" = t := by
  by_cases h : t.isEmpty
  · rw [(String.isEmpty_iff t).mp h]
    rfl
  · simp [pyOr, h]

theorem ne_empty_of_length_pos {s : String} (h : 0 < s.length) : s ≠ "" := by
  intro he
  subst he
  simp at h

theorem english_length (t : String) :
    (englishFallback t).length = t.length + 71 := by
  have h1 : ("I heard you: \"" : String).length = 14 := rfl
  have h2 : ("\".\nYou can ask me questions or say hi (e.g., \x27Assalamu\x27)."
      : String).length = 57 := rfl
  unfold englishFallback
  simp only [String.length_append]
  rw [h1, h2]
  omega

theorem hausa_length (n t : String) :
    (hausaFallback n t).length = n.length + t.length + 89 := by
  have h1 : ("Na ji sakonka, " : String).length = 15 := rfl
  have h2 : (". 🌸\nKa/ki rubuta: \"" : String).length = 19 := rfl
  have h3 : ("\". Zan iya taimaka maka/ki — menene kake/kike so na yi?"
      : String).length = 55 := rfl
  unfold hausaFallback
  simp only [String.length_append]
  rw [h1, h2, h3]
  omega

theorem fallback_length_le (t n : String) :
    (fallbackReply t n).length ≤ t.length + n.length + 89 := by
  unfold fallbackReply
  split
  · rw [hausa_length]; omega
  · rw [english_length]; omega

theorem fallback_ne (t n : String) : fallbackReply t n ≠ "" := by
  apply ne_empty_of_length_pos
  unfold fallbackReply
  split
  · rw [hausa_length]; omega
  · rw [english_length]; omega

theorem fallback_contains (t n : String) :
    t.data <:+: (fallbackReply t n).data := by
  unfold fallbackReply
  split
  · exact ⟨("Na ji sakonka, " ++ n ++ ". 🌸\nKa/ki rubuta: \"").data,
      ("\". Zan iya taimaka maka/ki — menene kake/kike so na yi?").data, by
        unfold hausaFallback
        simp [String.data_append]⟩
  · exact ⟨("I heard you: \"").data,
      ("\".\nYou can ask me questions or say hi (e.g., \x27Assalamu\x27)."
        ).data, by
        unfold englishFallback
        simp [String.data_append]⟩

theorem containsKeyword_iff (t : String) :
    containsKeyword t = true ↔
      ∃ k ∈ hausa_keywords, k.data <:+: (pyLower t).data := by
  simp [containsKeyword, pyIn, List.any_eq_true]

theorem handle_no_key (k : Option String) (oc : HttpOutcome)
    (tx nm : Option String) (h : strTruthy k = false) :
    handle_message k oc tx nm = fallbackReply (pyOr tx "") (pyOr nm "User") := by
  unfold handle_message
  rw [h]
  simp

theorem ask_ok (k : Option String) (c : String) (h : strTruthy k = true) :
    ask_openai_chat k (okOutcome c) = some (pyStrip c) := by
  unfold ask_openai_chat
  rw [h]
  rfl

theorem pyTake_length (s : String) (n : Nat) :
    (pyTake s n).length = min n s.length := by
  show (s.data.take n).length = min n s.length
  rw [List.length_take]
  rfl

theorem pyStrip_all_space (s : String) (h : s.data.all isSpace = true) :
    pyStrip s = "" := by
  have hd : s.data.dropWhile isSpace = [] := by
    rw [List.dropWhile_eq_nil_iff]
    intro x hx
    exact List.all_eq_true.mp h x hx
  unfold pyStrip
  rw [hd]
  rfl

theorem pyStrip_replicate (c : Char) (n : Nat) (h : isSpace c = false) :
    pyStrip (String.mk (List.replicate n c)) = String.mk (List.replicate n c) := by
  have hd : ∀ m, List.dropWhile isSpace (List.replicate m c) =
      List.replicate m c := by
    intro m
    cases m with
    | zero => rfl
    | succ m => rw [List.replicate_succ, List.dropWhile_cons, h]; simp
  unfold pyStrip
  simp only [hd, List.reverse_replicate]

theorem handle_key_some (k : Option String) (oc : HttpOutcome)
    (tx nm : Option String) (r : String) (hk : strTruthy k = true)
    (ha : ask_openai_chat k oc = some r) :
    handle_message k oc tx nm =
      if r.isEmpty then fallbackReply (pyOr tx "") (pyOr nm "User")
      else if r.length > 4096 then pyTake r 4000 ++ truncationMarker
      else r := by
  unfold handle_message
  rw [hk, ha]
  simp

theorem handle_key_fail (k : Option String) (oc : HttpOutcome)
    (tx nm : Option String) (hk : strTruthy k = true)
    (ha : ask_openai_chat k oc = none) :
    handle_message k oc tx nm = fallbackReply (pyOr tx "") (pyOr nm "User") := by
  unfold handle_message
  rw [hk, ha]
  simp

theorem fallback_empty_text (n : String) :
    fallbackReply "" n = englishFallback "" := by
  unfold fallbackReply
  rw [show containsKeyword "" = false from by decide]
  simp

theorem not_infix_replicate {l : List Char} {c : Char}
    (hx : ∃ x ∈ l, x ≠ c) (n : Nat) : ¬ l <:+: List.replicate n c := by
  intro hinf
  obtain ⟨x, hxl, hne⟩ := hx
  exact hne (List.eq_of_mem_replicate (hinf.subset hxl))

theorem containsKeyword_replicate_a (n : Nat) :
    containsKeyword (String.mk (List.replicate n 'a')) = false := by
  rw [Bool.eq_false_iff]
  intro hcc
  obtain ⟨k, hk, hinf⟩ := (containsKeyword_iff _).mp hcc
  have hl : (pyLower (String.mk (List.replicate n 'a'))).data =
      List.replicate n 'a' := by
    show (List.replicate n 'a').map Char.toLower = List.replicate n 'a'
    rw [List.map_replicate, show Char.toLower 'a' = 'a' from by decide]
  rw [hl] at hinf
  have hx : ∃ x ∈ k.data, x ≠ 'a' := by
    simp only [hausa_keywords, List.mem_cons, List.not_mem_nil, or_false]
      at hk
    rcases hk with rfl | rfl | rfl | rfl | rfl | rfl | rfl | rfl | rfl <;>
      decide
  exact not_infix_replicate hx n hinf

/-! ### Claim theorems -/

/-- Claim C3: on the fallback path, for every input whose lower-cased form
contains one of the fixed Hausa keywords as a substring the Hausa-flavored
template is chosen, and for every input whose lower-cased form contains
none of them the English echo template is chosen. -/
theorem claim_C3_keyword_dispatch (oc : HttpOutcome) (tx nm : Option String) :
    ((∃ k ∈ hausa_keywords, k.data <:+: (pyLower (pyOr tx "")).data) →
      handle_message none oc tx nm =
        hausaFallback (pyOr nm "User") (pyOr tx ""))
    ∧ ((∀ k ∈ hausa_keywords, ¬ k.data <:+: (pyLower (pyOr tx "")).data) →
      handle_message none oc tx nm = englishFallback (pyOr tx "")) := by
  rw [handle_no_key none oc tx nm rfl]
  constructor
  · intro hex
    have hc : containsKeyword (pyOr tx "") = true :=
      (containsKeyword_iff _).mpr hex
    unfold fallbackReply
    rw [hc]
    simp
  · intro hall
    have hc : containsKeyword (pyOr tx "") = false := by
      rw [Bool.eq_false_iff]
      intro hcc
      obtain ⟨k, hk, hinf⟩ := (containsKeyword_iff _).mp hcc
      exact hall k hk hinf
    unfold fallbackReply
    rw [hc]
    simp

theorem claim_C3_keyword_dispatch_witness :
    handle_message none HttpOutcome.netError (some "sannu") (some "Bala") =
      hausaFallback "Bala" "sannu"
    ∧ handle_message none HttpOutcome.netError (some "hello") (some "Bala") =
      englishFallback "hello" := by
  constructor
  · exact (claim_C3_keyword_dispatch HttpOutcome.netError (some "sannu")
      (some "Bala")).1 ⟨"sannu", by decide, by decide⟩
  · exact (claim_C3_keyword_dispatch HttpOutcome.netError (some "hello")
      (some "Bala")).2 (by decide)

/-- Claim C4: with no completion credential configured, the reply to any
inbound text `t` is non-empty and contains `t` verbatim as a substring. -/
theorem claim_C4_fallback_echoes_input (k : Option String) (oc : HttpOutcome)
    (t : String) (nm : Option String) (h : strTruthy k = false) :
    handle_message k oc (some t) nm ≠ ""
    ∧ t.data <:+: (handle_message k oc (some t) nm).data := by
  rw [handle_no_key k oc (some t) nm h, pyOr_some]
  exact ⟨fallback_ne _ _, fallback_contains _ _⟩

theorem claim_C4_fallback_echoes_input_witness :
    strTruthy none = false
    ∧ (handle_message none HttpOutcome.netError (some "hi") (some "Ali") ≠ ""
      ∧ ("hi" : String).data <:+:
        (handle_message none HttpOutcome.netError (some "hi")
          (some "Ali")).data) :=
  ⟨rfl, claim_C4_fallback_echoes_input none HttpOutcome.netError "hi"
    (some "Ali") rfl⟩

/-- Claim C5: with a credential configured and the completion endpoint
returning `{choices: [{message: {content: "hello"}}]}`, the reply is exactly
`"hello"` — no template wrapping, no truncation. -/
theorem claim_C5_success_passthrough (k : Option String) (tx nm : Option String)
    (h : strTruthy k = true) :
    handle_message k (okOutcome "hello") tx nm = "hello" := by
  have ha : ask_openai_chat k (okOutcome "hello") = some "hello" :=
    ask_ok k "hello" h
  rw [handle_key_some k (okOutcome "hello") tx nm "hello" h ha]
  rfl

theorem claim_C5_success_passthrough_witness :
    strTruthy (some "sk") = true
    ∧ handle_message (some "sk") (okOutcome "hello") (some "hi") (some "Ali") =
      "hello" :=
  ⟨rfl, claim_C5_success_passthrough (some "sk") (some "hi") (some "Ali") rfl⟩

/-- Claim C6: with a credential configured, if the one completion attempt
fails (network error, bad status, parse error, missing fields — all the
cases where `ask_openai_chat` yields `None`), the reply is identical to the
no-credential reply for the same input, and exactly one completion call was
made (no retry). -/
theorem claim_C6_failure_refines_fallback (k : Option String)
    (oc oc2 : HttpOutcome) (tx nm : Option String)
    (hk : strTruthy k = true) (hfail : ask_openai_chat k oc = none) :
    handle_message k oc tx nm = handle_message none oc2 tx nm
    ∧ completionCalls k = 1 := by
  constructor
  · rw [handle_no_key none oc2 tx nm rfl]
    exact handle_key_fail k oc tx nm hk hfail
  · unfold completionCalls
    rw [hk]
    simp

theorem claim_C6_failure_refines_fallback_witness :
    strTruthy (some "sk") = true
    ∧ ask_openai_chat (some "sk") HttpOutcome.netError = none
    ∧ (handle_message (some "sk") HttpOutcome.netError (some "hi")
        (some "Ali") =
      handle_message none (okOutcome "x") (some "hi") (some "Ali")
      ∧ completionCalls (some "sk") = 1) :=
  ⟨rfl, rfl, claim_C6_failure_refines_fallback (some "sk")
    HttpOutcome.netError (okOutcome "x") (some "hi") (some "Ali") rfl rfl⟩

/-- Claim C7: an empty (or absent) inbound text with no credential
configured is treated as the empty string and yields the English echo
template quoting the empty string — no error. -/
theorem claim_C7_empty_text (oc : HttpOutcome) (nm : Option String) :
    handle_message none oc none nm = englishFallback ""
    ∧ handle_message none oc (some "") nm = englishFallback ""
    ∧ englishFallback "" =
      "I heard you: \"\".\nYou can ask me questions or say hi (e.g., \x27Assalamu\x27)." := by
  refine ⟨?_, ?_, by decide⟩
  · rw [handle_no_key none oc none nm rfl]
    exact fallback_empty_text _
  · rw [handle_no_key none oc (some "") nm rfl]
    exact fallback_empty_text _

/-- Claim C9: the resolver is deterministic — two invocations on identical
inputs (key, mocked completion outcome, text, sender name) produce
identical replies. -/
theorem claim_C9_deterministic (k k2 : Option String) (oc oc2 : HttpOutcome)
    (tx tx2 nm nm2 : Option String)
    (h1 : k = k2) (h2 : oc = oc2) (h3 : tx = tx2) (h4 : nm = nm2) :
    handle_message k oc tx nm = handle_message k2 oc2 tx2 nm2 := by
  subst h1 h2 h3 h4
  rfl

theorem claim_C9_deterministic_witness :
    handle_message (some "sk") (okOutcome "hello") (some "hi") (some "Ali") =
      handle_message (some "sk") (okOutcome "hello") (some "hi")
        (some "Ali") :=
  claim_C9_deterministic (some "sk") (some "sk") (okOutcome "hello")
    (okOutcome "hello") (some "hi") (some "hi") (some "Ali") (some "Ali")
    rfl rfl rfl rfl

/-- Claim C1 counterexample: the claimed invariant "the reply never exceeds
4096 characters" fails on the code — with no credential, an inbound text of
4097 `a`s takes the fallback path, whose English echo template embeds the
text verbatim without truncation, giving a reply longer than 4096. -/
theorem claim_C1_counterexample :
    4096 < (handle_message none HttpOutcome.netError
      (some (String.mk (List.replicate 4097 'a'))) (some "User")).length := by
  rw [handle_no_key none HttpOutcome.netError
    (some (String.mk (List.replicate 4097 'a'))) (some "User") rfl, pyOr_some]
  unfold fallbackReply
  rw [containsKeyword_replicate_a]
  simp only [Bool.false_eq_true, if_false]
  rw [english_length]
  rw [show (String.mk (List.replicate 4097 'a')).length = 4097 from by
    show (List.replicate 4097 'a').length = 4097
    rw [List.length_replicate]]
  omega

/-- Claim C1 (amended): exactly one reply is produced per inbound message
and it is never empty; a completion-path reply never exceeds 4096
characters, but a fallback reply embeds the inbound text and sender name
verbatim and is bounded only by their lengths plus 89 characters of
template overhead, so it can exceed 4096 for long inbound text. -/
theorem claim_C1_amended (k : Option String) (oc : HttpOutcome)
    (tx nm : Option String) :
    handle_message k oc tx nm ≠ ""
    ∧ (handle_message k oc tx nm).length ≤
        max 4096 ((pyOr tx "").length + (pyOr nm "User").length + 89) := by
  by_cases hk : strTruthy k = true
  · cases ha : ask_openai_chat k oc with
    | none =>
      rw [handle_key_fail k oc tx nm hk ha]
      exact ⟨fallback_ne _ _, le_max_of_le_right (fallback_length_le _ _)⟩
    | some r =>
      rw [handle_key_some k oc tx nm r hk ha]
      by_cases he : r.isEmpty = true
      · rw [if_pos he]
        exact ⟨fallback_ne _ _, le_max_of_le_right (fallback_length_le _ _)⟩
      · rw [if_neg he]
        by_cases hl : r.length > 4096
        · rw [if_pos hl]
          have hm : truncationMarker.length = 13 := rfl
          constructor
          · apply ne_empty_of_length_pos
            rw [String.length_append]
            omega
          · apply le_max_of_le_left
            rw [String.length_append, pyTake_length, hm]
            have h4 : min 4000 r.length ≤ 4000 := min_le_left _ _
            omega
        · rw [if_neg hl]
          refine ⟨fun hEq => he ((String.isEmpty_iff r).mpr hEq),
            le_max_of_le_left (by omega)⟩
  · have hk' : strTruthy k = false := Bool.eq_false_iff.mpr hk
    rw [handle_no_key k oc tx nm hk']
    exact ⟨fallback_ne _ _, le_max_of_le_right (fallback_length_le _ _)⟩

/-- Claim C2: with a credential configured, an over-long completion text
(stripped length > 4096) is truncated to its first 4000 characters plus the
truncation marker, so the reply is at most 4096 characters and ends with
the marker; a non-empty completion text of at most 4096 characters passes
through unchanged. -/
theorem claim_C2_truncation (k : Option String) (c : String)
    (tx nm : Option String) (hk : strTruthy k = true) :
    ((pyStrip c).length > 4096 →
      handle_message k (okOutcome c) tx nm =
        pyTake (pyStrip c) 4000 ++ truncationMarker
      ∧ (handle_message k (okOutcome c) tx nm).length ≤ 4096
      ∧ ∃ p, handle_message k (okOutcome c) tx nm = p ++ truncationMarker)
    ∧ ((pyStrip c).isEmpty = false → (pyStrip c).length ≤ 4096 →
      handle_message k (okOutcome c) tx nm = pyStrip c) := by
  have ha := ask_ok k c hk
  rw [handle_key_some k (okOutcome c) tx nm (pyStrip c) hk ha]
  constructor
  · intro hlen
    have hne : ¬ (pyStrip c).isEmpty = true := by
      intro he
      rw [(String.isEmpty_iff _).mp he] at hlen
      simp at hlen
    rw [if_neg hne, if_pos hlen]
    have hm : truncationMarker.length = 13 := rfl
    refine ⟨rfl, ?_, ⟨pyTake (pyStrip c) 4000, rfl⟩⟩
    rw [String.length_append, pyTake_length, hm]
    have h4 : min 4000 (pyStrip c).length ≤ 4000 := min_le_left _ _
    omega
  · intro hne hle
    rw [if_neg (by rw [hne]; exact fun h => Bool.false_ne_true h),
      if_neg (by omega)]

theorem claim_C2_truncation_witness :
    strTruthy (some "sk") = true
    ∧ (handle_message (some "sk")
        (okOutcome (String.mk (List.replicate 5000 'x')))
        (some "hi") (some "Ali")).length ≤ 4096
    ∧ ∃ p, handle_message (some "sk")
        (okOutcome (String.mk (List.replicate 5000 'x')))
        (some "hi") (some "Ali") = p ++ truncationMarker := by
  have hstrip : pyStrip (String.mk (List.replicate 5000 'x')) =
      String.mk (List.replicate 5000 'x') := pyStrip_replicate 'x' 5000 rfl
  have hlen : (pyStrip (String.mk (List.replicate 5000 'x'))).length >
      4096 := by
    rw [hstrip]
    show 4096 < (List.replicate 5000 'x').length
    rw [List.length_replicate]
    omega
  exact ⟨rfl, ((claim_C2_truncation (some "sk")
    (String.mk (List.replicate 5000 'x')) (some "hi") (some "Ali")
    rfl).1 hlen).2⟩

/-- Claim C8 counterexample: the `/echo` command's reply is not a fixed
constant string — it depends on the invocation's arguments. -/
theorem claim_C8_counterexample : echo_cmd ["hi"] ≠ echo_cmd [] := by decide

/-- Claim C8 (amended): `/start` and `/help` are dispatched to fixed
constant reply strings independent of the invocation's arguments, with no
resolver involvement; `/echo` replies with a fixed usage string when given
no arguments and otherwise with the space-joined arguments. -/
theorem claim_C8_amended (a b : List String) (x : String) (xs : List String) :
    start a = start b
    ∧ help_cmd a = help_cmd b
    ∧ echo_cmd [] = "Usage: /echo your message"
    ∧ echo_cmd (x :: xs) = String.intercalate " " (x :: xs) := by
  refine ⟨rfl, rfl, rfl, ?_⟩
  unfold echo_cmd
  simp

/-- Claim C10: with a credential configured, a successful completion whose
content is all whitespace strips to the empty string and is not sent as the
reply; the resolver produces the local fallback reply instead. -/
theorem claim_C10_whitespace_completion (k : Option String) (c : String)
    (tx nm : Option String) (hk : strTruthy k = true)
    (hsp : c.data.all isSpace = true) :
    handle_message k (okOutcome c) tx nm =
      fallbackReply (pyOr tx "") (pyOr nm "User") := by
  have ha : ask_openai_chat k (okOutcome c) = some "" := by
    rw [ask_ok k c hk, pyStrip_all_space c hsp]
  rw [handle_key_some k (okOutcome c) tx nm "" hk ha]
  rfl

theorem claim_C10_whitespace_completion_witness :
    strTruthy (some "sk") = true
    ∧ ("   " : String).data.all isSpace = true
    ∧ handle_message (some "sk") (okOutcome "   ") (some "hi") (some "Ali") =
      fallbackReply "hi" "Ali" :=
  ⟨rfl, by decide, claim_C10_whitespace_completion (some "sk") "   "
    (some "hi") (some "Ali") rfl (by decide)⟩

end Bot
